import Mathlib

/-!
Shallow embedding of `src/tools/NEC/nec_sd_generator.py` (SuperDARN NEC deck
generator) and proofs about the claims of its specification.

Conventions of the embedding:
* Python `float` arithmetic is modelled exactly: by `ℚ` where the program only
  performs field operations on literals, and by `ℝ` where it calls `math.sqrt`,
  `math.sin`, `math.cos`, `math.acos` or `math.pow`.
* Python `int(x)` (truncation toward zero) is `pytrunc` / `truncR`.
* A raised exception is an `Except.error`; the constructors of `Err` name the
  Python exception classes the program can raise.  The spec's error taxonomy
  (§7) maps its `ConfigurationError` onto the `ValueError` raised by the
  input-size validations of `create_main_array` / `create_int_array`.
* The module-global `wire_number` counter is threaded explicitly: every
  constructor takes the current counter and returns the updated one.
-/

namespace NecGen

/-- Python exception classes raised by the generator code. -/
inductive Err where
  | valueError : Err
  | typeError : Err
  | notImplementedError : Err
deriving DecidableEq, Repr

/-- A Python number: either an `int` object or a `float` object.  The
distinction matters because the script compares numbers with `is` (object
identity) in places, and because Python 3 `range` accepts only `int`. -/
inductive PyNum where
  | int : ℤ → PyNum
  | float : ℚ → PyNum
deriving DecidableEq, Repr

/-- Module constant `speed_of_light` (`scipy.constants.speed_of_light`, exact). -/
def speed_of_light : ℚ := 299792458

/-- Module global `min_frequency = 8e6`. -/
def min_frequency : ℚ := 8000000

/-- Module global `aluminum_conductivity = 3.5e7`. -/
def aluminum_conductivity : ℚ := 35000000

/-- Module global `copper_conductivity = 5.96e7`. -/
def copper_conductivity : ℚ := 59600000

/-- Python `int(x)` on a rational: truncation toward zero. -/
def pytrunc (q : ℚ) : ℤ := if 0 ≤ q then ⌊q⌋ else -⌊-q⌋

/-- Python `int(x)` on a real: truncation toward zero. -/
noncomputable def truncR (x : ℝ) : ℤ := if 0 ≤ x then ⌊x⌋ else -⌊-x⌋

/-- Lines 228-229 of `Wire.__init__`: `if segments % 2 == 0: segments += 1`. -/
def oddify (s : ℤ) : ℤ := if s % 2 = 0 then s + 1 else s

/-- Automatic segment-count rule of `Wire.__init__` (lines 226-229), as a
function of the wire length and the minimum design frequency:
`segment_length = 0.05 * speed_of_light / min_frequency;
 segments = int(wire_length / segment_length);
 if segments % 2 == 0: segments += 1`. -/
def segments_for (length_m min_frequency_hz : ℚ) : ℤ :=
  oddify (pytrunc (length_m / (0.05 * speed_of_light / min_frequency_hz)))

/-- `Wire.get_mid_segment` (lines 233-241) as a function of the segment count:
raise `ValueError` when the count is even, else return `1 + int(segments / 2)`
(Python 3 true division followed by `int` truncation). -/
def get_mid_segment (segments : ℤ) : Except Err ℤ :=
  if segments % 2 = 0 then .error .valueError
  else .ok (1 + pytrunc ((segments : ℚ) / 2))

/-- The `wire_structure` dictionary built by `Wire.__init__` (line 230). -/
structure WireS where
  wire_number : ℕ
  segments : ℤ
  x1 : ℝ
  y1 : ℝ
  z1 : ℝ
  x2 : ℝ
  y2 : ℝ
  z2 : ℝ
  radius : ℝ

/-- Line 221-222 of `Wire.__init__`: the euclidean distance between the two
endpoints, via `math.sqrt`. -/
noncomputable def wireLength (x1 y1 z1 x2 y2 z2 : ℝ) : ℝ :=
  Real.sqrt ((z2 - z1) * (z2 - z1) + (y2 - y1) * (y2 - y1) + (x2 - x1) * (x2 - x1))

/-- `Wire.__init__` (lines 201-231).  Takes the current value of the module
global `wire_number` and returns the incremented counter together with the
constructed wire.  `segments = 0` selects the automatic segmentation rule
(the code's `if segments is 0` — the argument is always the literal `0` or a
small literal constant, for which CPython identity equals equality). -/
noncomputable def mkWire (wn : ℕ) (x1 y1 z1 x2 y2 z2 radius : ℝ) (segments : ℤ) :
    ℕ × WireS :=
  let wn' := wn + 1
  let len := wireLength x1 y1 z1 x2 y2 z2
  let segs := if segments = 0 then
      oddify (truncR (len / ((0.05 : ℝ) * (speed_of_light : ℚ) / (min_frequency : ℚ))))
    else segments
  (wn', ⟨wn', segs, x1, y1, z1, x2, y2, z2, radius⟩)

/-- `Wire.translate` (lines 249-262): add an offset to both endpoints. -/
def WireS.translate (w : WireS) (x y z : ℝ) : WireS :=
  { w with x1 := w.x1 + x, y1 := w.y1 + y, z1 := w.z1 + z,
           x2 := w.x2 + x, y2 := w.y2 + y, z2 := w.z2 + z }

/-- Parameters of one `Wire(...)` construction (used to describe a run). -/
structure WireParams where
  x1 : ℝ
  y1 : ℝ
  z1 : ℝ
  x2 : ℝ
  y2 : ℝ
  z2 : ℝ
  radius : ℝ
  segments : ℤ

/-- A sequence of `Wire` constructions sharing the module-global counter,
in order; returns the final counter and the wires in construction order. -/
noncomputable def runWires (wn : ℕ) : List WireParams → ℕ × List WireS
  | [] => (wn, [])
  | p :: ps =>
    let s := mkWire wn p.x1 p.y1 p.z1 p.x2 p.y2 p.z2 p.radius p.segments
    let rest := runWires s.1 ps
    (rest.1, s.2 :: rest.2)

/-- One `LD 5` conductivity card, as emitted by `create_wire_conductivity`
(lines 741-754): `LD 5 {tag} {start} {end} {conductivity}`. -/
structure LD5Card where
  tag : ℕ
  startSeg : ℤ
  endSeg : ℤ
  conductivity : ℚ
deriving DecidableEq, Repr

/-- `create_wire_conductivity` (lines 741-754). -/
def create_wire_conductivity (tag_number : ℕ) (start_segment_number end_segment_number : ℤ)
    (conductivity : ℚ) : LD5Card :=
  ⟨tag_number, start_segment_number, end_segment_number, conductivity⟩

/-- The conductivity section of the emitted deck (lines 1103-1107 of
`__main__`): `for wire in range(0, wire_number): f.write(create_wire_conductivity(wire, ...))`,
with aluminum conductivity when log-periodic elements were selected and the
default copper conductivity otherwise. -/
def conductivitySection (wire_number : ℕ) (log_periodic : Bool) : List LD5Card :=
  (List.range wire_number).map (fun w =>
    if log_periodic then create_wire_conductivity w 0 0 aluminum_conductivity
    else create_wire_conductivity w 0 0 copper_conductivity)

/-- One `EX` excitation card as built by `Source.__init__` (lines 161-185):
mode 6 for a current source, mode 0 for a voltage source. -/
structure EXCard where
  mode : ℕ
  tag : ℕ
  seg : ℤ
  re : ℝ
  im : ℝ

/-- `Source.__init__` (lines 161-185).  For a current source, an excitation
component equal to zero is nudged by `+= 1e-10`; a voltage source is emitted
unchanged with mode 0. -/
noncomputable def mkSource (tag : ℕ) (segment : ℤ) (excitation_real excitation_imag : ℝ)
    (current_source : Bool) : EXCard :=
  if current_source then
    let re := if excitation_real = 0 then excitation_real + 1e-10 else excitation_real
    let im := if excitation_imag = 0 then excitation_imag + 1e-10 else excitation_imag
    ⟨6, tag, segment, re, im⟩
  else
    ⟨0, tag, segment, excitation_real, excitation_imag⟩

/-- One `LD 4` impedance-load card as built by `Load.__init__` (lines 133-146). -/
structure LD4Card where
  tag : ℕ
  startSeg : ℤ
  endSeg : ℤ
  re : ℝ
  im : ℝ

/-- `Load.__init__` (lines 133-146). -/
def mkLoad (tag : ℕ) (start_segment end_segment : ℤ) (impedance_real impedance_imag : ℝ) :
    LD4Card :=
  ⟨tag, start_segment, end_segment, impedance_real, impedance_imag⟩

/-- One `TL` card as built by `TransmissionLine.__init__` (lines 95-100);
a crossed line negates the characteristic impedance. -/
structure TLCard where
  tag1 : ℕ
  seg1 : ℤ
  tag2 : ℕ
  seg2 : ℤ
  impedance : ℝ
  length : ℝ

/-- `TransmissionLine.__init__` (lines 95-100). -/
def mkTransmissionLine (tag1 : ℕ) (segment1 : ℤ) (tag2 : ℕ) (segment2 : ℤ)
    (crossed : Bool) (impedance length : ℝ) : TLCard :=
  ⟨tag1, segment1, tag2, segment2, if crossed then -impedance else impedance, length⟩

/-- `get_mm_radius_from_awg` (lines 728-738): `ValueError` outside 0..36, else
`0.127 * 92 ** ((36 - awg) / 39)` (mm). -/
noncomputable def get_mm_radius_from_awg (awg : ℤ) : Except Err ℝ :=
  if awg < 0 ∨ 36 < awg then .error .valueError
  else .ok (0.127 * (92 : ℝ) ^ ((((36 - awg : ℤ) : ℝ)) / 39))

/-- A constructed TTFD element (class `TTFD`, lines 609-691): seven wires in
construction order, two loads and one excitation. -/
structure TTFDS where
  wires : List WireS
  topload : LD4Card
  bottomload : LD4Card
  excitation : EXCard

/-- `TTFD.__init__` (lines 628-691) with the defaults the array builders rely
on (`wire_gauge=13`, `height=10.0`, `termination=100.0`, `mid_width=12.0`,
`top_width=8.0`, `wire_spacing=1.5`); note the code ignores `termination` and
passes `Load`'s default 100 Ω.  Threads the `wire_number` counter. -/
noncomputable def mkTTFD (wn : ℕ) (wire_gauge : ℤ)
    (height termination mid_width top_width wire_spacing gx gy gz : ℝ)
    (current_real current_imag : ℝ) : ℕ × Except Err TTFDS :=
  match get_mm_radius_from_awg wire_gauge with
  | .error e => (wn, .error e)
  | .ok rmm =>
    let _ := termination
    let r := rmm / 1000
    let s1 := mkWire wn (-mid_width / 2) 0 height (-top_width / 2) 0 (wire_spacing + height) r 0
    let topleftwire := s1.2.translate gx gy gz
    let s2 := mkWire s1.1 (-top_width / 2) 0 (wire_spacing + height)
        (top_width / 2) 0 (wire_spacing + height) r 0
    let topwire := s2.2.translate gx gy gz
    let s3 := mkWire s2.1 (mid_width / 2) 0 height (top_width / 2) 0 (wire_spacing + height) r 0
    let toprightwire := s3.2.translate gx gy gz
    let s4 := mkWire s3.1 (-mid_width / 2) 0 height (mid_width / 2) 0 height r 0
    let middlewire := s4.2.translate gx gy gz
    let s5 := mkWire s4.1 (-mid_width / 2) 0 height (-top_width / 2) 0 (-wire_spacing + height) r 0
    let bottomleftwire := s5.2.translate gx gy gz
    let s6 := mkWire s5.1 (-top_width / 2) 0 (-wire_spacing + height)
        (top_width / 2) 0 (-wire_spacing + height) r 0
    let bottomwire := s6.2.translate gx gy gz
    let s7 := mkWire s6.1 (mid_width / 2) 0 height (top_width / 2) 0 (-wire_spacing + height) r 0
    let bottomrightwire := s7.2.translate gx gy gz
    let wn := s7.1
    match get_mid_segment topwire.segments with
    | .error e => (wn, .error e)
    | .ok midTop =>
      let topload := mkLoad topwire.wire_number midTop midTop 100 0
      match get_mid_segment bottomwire.segments with
      | .error e => (wn, .error e)
      | .ok midBot =>
        let bottomload := mkLoad bottomwire.wire_number midBot midBot 100 0
        match get_mid_segment middlewire.segments with
        | .error e => (wn, .error e)
        | .ok midMid =>
          let excitation := mkSource middlewire.wire_number midMid current_real current_imag true
          (wn, .ok ⟨[topleftwire, topwire, toprightwire, middlewire,
                      bottomleftwire, bottomwire, bottomrightwire],
                    topload, bottomload, excitation⟩)

/-- A constructed log-periodic element (class `LogPeriodic`, lines 314-489):
ten driven wires, one excitation, nine crossed transmission lines. -/
structure LPS where
  drivens : List WireS
  excitation : EXCard
  transmissionlines : List TLCard

/-- The transmission-line loop of `LogPeriodic.__init__` (lines 386-397): one
crossed 50 Ω line between the middle segments of each consecutive pair of
driven elements. -/
def lpTransmissionLines : List WireS → Except Err (List TLCard)
  | a :: b :: rest => do
    let midB ← get_mid_segment b.segments
    let midA ← get_mid_segment a.segments
    let tls ← lpTransmissionLines (b :: rest)
    pure (mkTransmissionLine a.wire_number midA b.wire_number midB true 50 0 :: tls)
  | _ => .ok []

/-- `LogPeriodic.__init__` (lines 344-420).  The `global_x/y/z` parameters are
accepted but never used by the code (the wires are placed at fixed coordinates
around x = 0 at the given height); the model keeps them to mirror the
signature.  Threads the `wire_number` counter. -/
noncomputable def mkLogPeriodic (wn : ℕ) (height gx gy gz : ℝ)
    (current_real current_imag : ℝ) : ℕ × Except Err LPS :=
  let _ := (gx, gy, gz)
  let radius : ℝ := 0.01
  let s1 := mkWire wn (-6.04 / 2) 0 height (6.04 / 2) 0 height radius 13
  let d1 := s1.2
  match get_mid_segment d1.segments with
  | .error e => (s1.1, .error e)
  | .ok mid1 =>
    let excitation := mkSource d1.wire_number mid1 current_real current_imag true
    let s2 := mkWire s1.1 (-6.70 / 2) 0.725 height (6.70 / 2) 0.725 height radius 15
    let s3 := mkWire s2.1 (-7.57 / 2) 1.585 height (7.57 / 2) 1.585 height radius 17
    let s4 := mkWire s3.1 (-8.46 / 2) 2.59 height (8.46 / 2) 2.59 height radius 19
    let s5 := mkWire s4.1 (-9.49 / 2) 3.765 height (9.49 / 2) 3.765 height radius 21
    let s6 := mkWire s5.1 (-10.55 / 2) 5.165 height (10.55 / 2) 5.165 height radius 23
    let s7 := mkWire s6.1 (-11.87 / 2) 6.68 height (11.87 / 2) 6.68 height radius 25
    let s8 := mkWire s7.1 (-13.37 / 2) 8.385 height (13.37 / 2) 8.385 height radius 27
    let s9 := mkWire s8.1 (-15.38 / 2) 10.325 height (15.38 / 2) 10.325 height radius 29
    let s10 := mkWire s9.1 (-15.40 / 2) 11.63 height (15.40 / 2) 11.63 height radius 31
    let drivens := [d1, s2.2, s3.2, s4.2, s5.2, s6.2, s7.2, s8.2, s9.2, s10.2]
    match lpTransmissionLines drivens with
    | .error e => (s10.1, .error e)
    | .ok tls => (s10.1, .ok ⟨drivens, excitation, tls⟩)

/-- One antenna element produced by the array builders. -/
inductive Element where
  | ttfd : TTFDS → Element
  | logperiodic : LPS → Element

/-- The per-antenna loop shared by `create_main_array` (lines 773-788) and
`create_int_array` (lines 810-828): for each antenna index, convert magnitude
and phase (degrees) to a complex current and construct a TTFD or log-periodic
element at `antenna * spacing - array_length / 2` plus the global offsets. -/
noncomputable def arrayLoop (spacing array_length xoff yoff zoff : ℝ)
    (mags phases : List ℝ) (log_periodics : Bool) :
    ℕ → List ℕ → ℕ × Except Err (List Element)
  | wn, [] => (wn, .ok [])
  | wn, antenna :: rest =>
    let phase := phases.getD antenna 0
    let magnitude := mags.getD antenna 0
    let real_cur := magnitude * Real.cos (phase * Real.pi / 180)
    let imag_cur := magnitude * Real.sin (phase * Real.pi / 180)
    let x_position := (antenna : ℝ) * spacing - array_length / 2
    let step : ℕ × Except Err Element :=
      if log_periodics then
        let s := mkLogPeriodic wn 15 (x_position + xoff) yoff zoff real_cur imag_cur
        (s.1, s.2.map Element.logperiodic)
      else
        let s := mkTTFD wn 13 10 100 12 8 1.5 (x_position + xoff) yoff zoff real_cur imag_cur
        (s.1, s.2.map Element.ttfd)
    match step with
    | (wn', .error e) => (wn', .error e)
    | (wn', .ok el) =>
      match arrayLoop spacing array_length xoff yoff zoff mags phases log_periodics wn' rest with
      | (wn'', .error e) => (wn'', .error e)
      | (wn'', .ok els) => (wn'', .ok (el :: els))

/-- `create_main_array` (lines 757-788): validate that both excitation lists
have exactly `num_antennas` entries (raising `ValueError` otherwise, before
any wire is constructed), then build one element per antenna.  The returned
counter is the value of the module global `wire_number` afterwards. -/
noncomputable def create_main_array (wn : ℕ) (num_antennas : ℕ) (antenna_spacing_m : ℝ)
    (antenna_magnitudes antenna_phases : List ℝ) (log_periodics : Bool) :
    ℕ × Except Err (List Element) :=
  if antenna_magnitudes.length ≠ num_antennas then (wn, .error .valueError)
  else if antenna_phases.length ≠ num_antennas then (wn, .error .valueError)
  else
    let array_length_m := ((num_antennas : ℝ) - 1) * antenna_spacing_m
    arrayLoop antenna_spacing_m array_length_m 0 0 0 antenna_magnitudes antenna_phases
      log_periodics wn (List.range num_antennas)

/-- `create_int_array` (lines 791-828): identical validation and loop, with the
interferometer x/y/z offsets applied to every element. -/
noncomputable def create_int_array (wn : ℕ) (num_antennas : ℕ) (antenna_spacing_m : ℝ)
    (int_x_spacing_m int_y_spacing_m int_z_spacing_m : ℝ)
    (antenna_magnitudes antenna_phases : List ℝ) (log_periodics : Bool) :
    ℕ × Except Err (List Element) :=
  if antenna_magnitudes.length ≠ num_antennas then (wn, .error .valueError)
  else if antenna_phases.length ≠ num_antennas then (wn, .error .valueError)
  else
    let array_length_m := ((num_antennas : ℝ) - 1) * antenna_spacing_m
    arrayLoop antenna_spacing_m array_length_m int_x_spacing_m int_y_spacing_m int_z_spacing_m
      antenna_magnitudes antenna_phases log_periodics wn (List.range num_antennas)

/-- `calculate_angle_from_beam` (lines 840-849):
`(beam_number - number_of_beams / 2.0 + 0.5) * beam_separation` (degrees). -/
noncomputable def calculate_angle_from_beam (beam_number beam_separation number_of_beams : ℝ) :
    ℝ :=
  (beam_number - number_of_beams / 2 + 0.5) * beam_separation

/-- `calculate_phase_from_beam` (lines 852-864): with the default beam
separation (3.24°) and beam count (16),
`360 * spacing * sin(azimuth * pi / 180) / wavelength`, `wavelength = c / f`. -/
noncomputable def calculate_phase_from_beam (beam_number frequency_hz antenna_spacing_m : ℝ) :
    ℝ :=
  let wavelength_m := ((speed_of_light : ℚ) : ℝ) / frequency_hz
  let beam_azimuth := calculate_angle_from_beam beam_number 3.24 16
  360 * antenna_spacing_m * Real.sin (beam_azimuth * Real.pi / 180) / wavelength_m

/-- Python 3 `/` on two `int`s: true division, always yielding a `float`. -/
def pyDivInt (a b : ℤ) : PyNum := .float ((a : ℚ) / (b : ℚ))

/-- Python 3 `range(0, n)`: the list `[0, ..., n-1]` when `n` is an `int`
(empty for `n ≤ 0`), and `TypeError` when `n` is a `float`. -/
def pyRange : PyNum → Except Err (List ℤ)
  | .int z => .ok ((List.range z.toNat).map (fun k => (k : ℤ)))
  | .float _ => .error .typeError

/-- The phase-accumulation inner loop of `calculate_broadened_phase`
(lines 913-917): starting from `prev = 0`, append `temp + prev` once per
element of the subarray, updating `prev` to the value just appended. -/
def phaseRamp (temp : ℝ) : ℝ → List ℤ → List ℝ
  | _, [] => []
  | prev, _ :: ks => (temp + prev) :: phaseRamp temp (temp + prev) ks

/-- `calculate_broadened_phase` (lines 879-920) under Python 3 semantics.
Both `for m in range(0, num_sub_arrays / 2)` headers and the inner
`range(0, elements_per_sub_array)` apply `range` to the `float` produced by
true division, so the first loop header raises `TypeError` before any phase
is computed; the remainder of the body is modelled for completeness but is
unreachable. -/
noncomputable def calculate_broadened_phase (frequency_hz antenna_spacing_m : ℚ)
    (num_antennas num_sub_arrays : ℤ) : Except Err (List ℝ) := do
  let ms ← pyRange (pyDivInt num_sub_arrays 2)
  let wavelength_m : ℝ := ((speed_of_light : ℚ) : ℝ) / ((frequency_hz : ℚ) : ℝ)
  let sub_array_azimuths := ms.map (fun m =>
    Real.arccos (((2 * m + 1 : ℤ) : ℝ) * wavelength_m * ((num_sub_arrays : ℤ) : ℝ) /
        (2 * ((num_antennas : ℤ) : ℝ) * ((antenna_spacing_m : ℚ) : ℝ))) - Real.pi / 2)
  let elements_per_sub_array := pyDivInt num_antennas num_sub_arrays
  let ms2 ← pyRange (pyDivInt num_sub_arrays 2)
  let element_phases ← ms2.foldlM (fun (acc : List ℝ) m => do
    let ks ← pyRange elements_per_sub_array
    let temp_phase := 360 * ((antenna_spacing_m : ℚ) : ℝ) *
        Real.sin (sub_array_azimuths.getD m.toNat 0) / wavelength_m
    pure (acc ++ phaseRamp temp_phase 0 ks)) []
  pure (element_phases ++ element_phases.reverse)

/-- The beam dispatch of `__main__` (lines 1035-1038):
`if args.beam is not 0: rel_phase = calculate_phase_from_beam(args.beam,
args.frequency * 1e6, args.antenna_spacing) else: rel_phase = 0`.
`args.beam` is declared with `type=float, default=0`, so its value is the
cached `int` object `0` exactly when the flag is absent, and a fresh `float`
object whenever a beam (any beam, including 0) is given on the command line;
`is not 0` is object identity against the cached small int. -/
def pyIsNotIntZero : PyNum → Bool
  | .int 0 => false
  | .int _ => true
  | .float _ => true

/-- Numeric value of a Python number. -/
noncomputable def pyNumToR : PyNum → ℝ
  | .int z => (z : ℝ)
  | .float q => (q : ℝ)

/-- The steering phase `rel_phase` computed by `__main__` (lines 1035-1038)
from the parsed `--beam` value, the frequency in MHz and the spacing. -/
noncomputable def relPhaseOfArgs (beam : PyNum) (frequency_mhz antenna_spacing : ℝ) : ℝ :=
  if pyIsNotIntZero beam then
    calculate_phase_from_beam (pyNumToR beam) (frequency_mhz * 1e6) antenna_spacing
  else 0

/-! ## Helper lemmas -/

theorem oddify_odd (s : ℤ) : Odd (oddify s) := by
  unfold oddify
  split
  · exact Int.even_iff.mpr (by assumption) |>.add_one
  · rcases Int.emod_two_eq_zero_or_one s with h | h
    · exact absurd h (by assumption)
    · exact Int.odd_iff.mpr h

theorem le_oddify (s : ℤ) : s ≤ oddify s := by
  unfold oddify; split <;> omega

theorem oddify_pos {s : ℤ} (h : 0 ≤ s) : 0 < oddify s := by
  unfold oddify; split <;> omega

theorem oddify_mono {a b : ℤ} (h : a ≤ b) : oddify a ≤ oddify b := by
  unfold oddify; split <;> split <;> omega

theorem pytrunc_of_nonneg {q : ℚ} (h : 0 ≤ q) : pytrunc q = ⌊q⌋ := by
  unfold pytrunc; exact if_pos h

/-! ## Claim theorems -/

/-- C2: for every positive wire length and positive minimum frequency, the
automatic segment-count computation (`Wire` constructed with `segments=0`)
yields an odd positive integer, equal to
`floor(length / (0.05 * c / min_frequency))` incremented by one when that
floor is even, and for fixed frequency the count is monotonically
non-decreasing in the length. -/
theorem auto_segments_odd_pos_eq_mono (len len' freq : ℚ)
    (hl : 0 < len) (hf : 0 < freq) (hle : len ≤ len') :
    Odd (segments_for len freq) ∧ 0 < segments_for len freq ∧
    segments_for len freq =
      (if Even ⌊len / (0.05 * speed_of_light / freq)⌋
       then ⌊len / (0.05 * speed_of_light / freq)⌋ + 1
       else ⌊len / (0.05 * speed_of_light / freq)⌋) ∧
    segments_for len freq ≤ segments_for len' freq := by
  have hc : (0 : ℚ) < 0.05 * speed_of_light / freq := by
    have : (0 : ℚ) < 0.05 * speed_of_light := by norm_num [speed_of_light]
    positivity
  have hq : (0 : ℚ) ≤ len / (0.05 * speed_of_light / freq) :=
    le_of_lt (div_pos hl hc)
  have hq' : (0 : ℚ) ≤ len' / (0.05 * speed_of_light / freq) :=
    le_of_lt (div_pos (lt_of_lt_of_le hl hle) hc)
  have hfloor : (0 : ℤ) ≤ ⌊len / (0.05 * speed_of_light / freq)⌋ :=
    Int.floor_nonneg.mpr hq
  have hdef : segments_for len freq = oddify ⌊len / (0.05 * speed_of_light / freq)⌋ := by
    unfold segments_for; rw [pytrunc_of_nonneg hq]
  have hdef' : segments_for len' freq = oddify ⌊len' / (0.05 * speed_of_light / freq)⌋ := by
    unfold segments_for; rw [pytrunc_of_nonneg hq']
  refine ⟨?_, ?_, ?_, ?_⟩
  · rw [hdef]; exact oddify_odd _
  · rw [hdef]; exact oddify_pos hfloor
  · rw [hdef]; unfold oddify
    simp only [Int.even_iff]
  · rw [hdef, hdef']
    refine oddify_mono (Int.floor_le_floor ?_)
    exact (div_le_div_iff_of_pos_right hc).mpr hle

/-- Witness for C2 at concrete inputs: length 2 m and 4000 m at 8 MHz. -/
theorem auto_segments_odd_pos_eq_mono_witness :
    Odd (segments_for 2 8000000) ∧ 0 < segments_for 2 8000000 ∧
    segments_for 2 8000000 =
      (if Even ⌊(2 : ℚ) / (0.05 * speed_of_light / 8000000)⌋
       then ⌊(2 : ℚ) / (0.05 * speed_of_light / 8000000)⌋ + 1
       else ⌊(2 : ℚ) / (0.05 * speed_of_light / 8000000)⌋) ∧
    segments_for 2 8000000 ≤ segments_for 4000 8000000 :=
  auto_segments_odd_pos_eq_mono 2 4000 8000000 (by norm_num) (by norm_num) (by norm_num)

theorem floor_int_half (s : ℤ) : ⌊(s : ℚ) / 2⌋ = s / 2 := by
  simpa using Rat.floor_intCast_div_natCast s 2

/-- C10: `get_mid_segment` raises an error iff the wire's segment count is
even; when the count `s` is odd it returns `1 + floor(s/2)`, which is in range
`1..s` and equidistant from both ends of the wire. -/
theorem get_mid_segment_spec (s : ℤ) (hs : 0 ≤ s) :
    ((∃ e, get_mid_segment s = .error e) ↔ Even s) ∧
    (Odd s → get_mid_segment s = .ok (1 + s / 2) ∧
      1 ≤ 1 + s / 2 ∧ 1 + s / 2 ≤ s ∧ (1 + s / 2) - 1 = s - (1 + s / 2)) := by
  constructor
  · constructor
    · rintro ⟨e, he⟩
      unfold get_mid_segment at he
      split at he
      · exact Int.even_iff.mpr (by assumption)
      · exact absurd he (by simp)
    · intro h
      exact ⟨.valueError, by unfold get_mid_segment; rw [if_pos (Int.even_iff.mp h)]⟩
  · intro h
    have h2 : s % 2 = 1 := Int.odd_iff.mp h
    have hcast : (0 : ℚ) ≤ (s : ℚ) / 2 := by
      have : (0 : ℚ) ≤ (s : ℚ) := by exact_mod_cast hs
      linarith
    have hmid : get_mid_segment s = .ok (1 + s / 2) := by
      unfold get_mid_segment
      rw [if_neg (by omega), pytrunc_of_nonneg hcast, floor_int_half]
    exact ⟨hmid, by omega, by omega, by omega⟩

/-- Witness for C10 at the concrete segment count 5. -/
theorem get_mid_segment_spec_witness :
    ((∃ e, get_mid_segment 5 = .error e) ↔ Even (5 : ℤ)) ∧
    (Odd (5 : ℤ) → get_mid_segment 5 = .ok (1 + 5 / 2) ∧
      1 ≤ 1 + (5 : ℤ) / 2 ∧ 1 + (5 : ℤ) / 2 ≤ 5 ∧
      (1 + (5 : ℤ) / 2) - 1 = 5 - (1 + (5 : ℤ) / 2)) :=
  get_mid_segment_spec 5 (by decide)

theorem pairwise_lt_of_range' (s n : ℕ) : List.Pairwise (· < ·) (List.range' s n) := by
  induction n generalizing s with
  | zero => exact List.Pairwise.nil
  | succ n ih =>
    rw [List.range'_succ]
    refine List.Pairwise.cons (fun x hx => ?_) (ih (s + 1))
    have := List.mem_range'_1.mp hx
    omega

theorem runWires_ids (wn : ℕ) (ps : List WireParams) :
    ((runWires wn ps).2).map WireS.wire_number = List.range' (wn + 1) ps.length := by
  induction ps generalizing wn with
  | nil => rfl
  | cons p ps ih =>
    simp only [runWires, mkWire, List.map_cons, List.length_cons, List.range'_succ]
    exact congrArg _ (ih (wn + 1))

/-- C4: within one deck-generation run the wire identifiers assigned by
successive `Wire` constructions are pairwise distinct and strictly increasing
in construction order (the counter is incremented before each assignment and
never reused). -/
theorem wire_numbers_strictly_increasing (wn : ℕ) (ps : List WireParams) :
    List.Pairwise (· < ·) (((runWires wn ps).2).map WireS.wire_number) := by
  rw [runWires_ids]
  exact pairwise_lt_of_range' (wn + 1) ps.length

/-- C1 (code bug): a fresh run constructing three wires assigns the
identifiers 1, 2, 3, but the conductivity loop `for wire in range(0,
wire_number)` emits `LD 5` cards for the tags 0, 1, 2 — one card for tag 0,
which is not a wire identifier, and no card for wire 3. -/
theorem conductivity_cards_off_by_one :
    (((runWires 0 [⟨0, 0, 0, 0, 0, 0, 0.001, 5⟩, ⟨0, 0, 0, 0, 0, 0, 0.001, 5⟩,
        ⟨0, 0, 0, 0, 0, 0, 0.001, 5⟩]).2).map WireS.wire_number = [1, 2, 3]) ∧
    ((conductivitySection (runWires 0 [⟨0, 0, 0, 0, 0, 0, 0.001, 5⟩,
        ⟨0, 0, 0, 0, 0, 0, 0.001, 5⟩, ⟨0, 0, 0, 0, 0, 0, 0.001, 5⟩]).1 false).map
        LD5Card.tag = [0, 1, 2]) ∧
    3 ∉ (conductivitySection (runWires 0 [⟨0, 0, 0, 0, 0, 0, 0.001, 5⟩,
        ⟨0, 0, 0, 0, 0, 0, 0.001, 5⟩, ⟨0, 0, 0, 0, 0, 0, 0.001, 5⟩]).1 false).map
        LD5Card.tag ∧
    0 ∉ ((runWires 0 [⟨0, 0, 0, 0, 0, 0, 0.001, 5⟩, ⟨0, 0, 0, 0, 0, 0, 0.001, 5⟩,
        ⟨0, 0, 0, 0, 0, 0, 0.001, 5⟩]).2).map WireS.wire_number := by
  have h1 : (((runWires 0 [⟨0, 0, 0, 0, 0, 0, 0.001, 5⟩, ⟨0, 0, 0, 0, 0, 0, 0.001, 5⟩,
      ⟨0, 0, 0, 0, 0, 0, 0.001, 5⟩]).2).map WireS.wire_number = [1, 2, 3]) := by
    rw [runWires_ids]; rfl
  have h2 : ((conductivitySection (runWires 0 [⟨0, 0, 0, 0, 0, 0, 0.001, 5⟩,
      ⟨0, 0, 0, 0, 0, 0, 0.001, 5⟩, ⟨0, 0, 0, 0, 0, 0, 0.001, 5⟩]).1 false).map
      LD5Card.tag = [0, 1, 2]) := rfl
  refine ⟨h1, h2, ?_, ?_⟩
  · rw [h2]; decide
  · rw [h1]; decide

theorem mkWire_coincident_eval (wn : ℕ) (x y z r : ℝ) :
    mkWire wn x y z x y z r 0 = (wn + 1, ⟨wn + 1, 1, x, y, z, x, y, z, r⟩) := by
  have hlen : wireLength x y z x y z = 0 := by
    unfold wireLength
    simp [Real.sqrt_eq_zero']
  unfold mkWire
  rw [hlen]
  norm_num [truncR, oddify]

/-- C3 counterexample: constructing a wire with coincident endpoints (length
0) and automatic segmentation does not fail — `Wire.__init__` raises nothing;
it increments the counter and produces a wire with segment count 1. -/
theorem degenerate_wire_produces_wire :
    mkWire 7 0 0 0 0 0 0 0.00127 0 = (8, ⟨8, 1, 0, 0, 0, 0, 0, 0, 0.00127⟩) := by
  rw [mkWire_coincident_eval]

/-- C3 amended: constructing a wire with coincident endpoints under automatic
segmentation succeeds with no error of any kind, assigning the next identifier
and segment count 1 (`int(0 / segment_length) = 0`, even, bumped to 1). -/
theorem degenerate_wire_yields_one_segment (wn : ℕ) (x y z r : ℝ) :
    (mkWire wn x y z x y z r 0).1 = wn + 1 ∧
    (mkWire wn x y z x y z r 0).2.wire_number = wn + 1 ∧
    (mkWire wn x y z x y z r 0).2.segments = 1 := by
  rw [mkWire_coincident_eval]
  exact ⟨rfl, rfl, rfl⟩

/-- C5: `create_main_array` and `create_int_array` with a magnitudes or phases
list whose length differs from `num_antennas` fail with the input-size
`ValueError` (the spec taxonomy's `ConfigurationError`), before any wire is
constructed: the returned `wire_number` counter equals the initial one. -/
theorem mismatched_lengths_fail_before_wires (wn num : ℕ) (spacing xs ys zs : ℝ)
    (mags phases : List ℝ) (logp : Bool)
    (h : mags.length ≠ num ∨ phases.length ≠ num) :
    create_main_array wn num spacing mags phases logp = (wn, .error .valueError) ∧
    create_int_array wn num spacing xs ys zs mags phases logp =
      (wn, .error .valueError) := by
  unfold create_main_array create_int_array
  rcases h with h | h
  · rw [if_pos h, if_pos h]
    exact ⟨rfl, rfl⟩
  · by_cases hm : mags.length ≠ num
    · rw [if_pos hm, if_pos hm]
      exact ⟨rfl, rfl⟩
    · rw [if_neg hm, if_neg hm, if_pos h, if_pos h]
      exact ⟨rfl, rfl⟩

/-- Witness for C5: two antennas requested, one magnitude supplied. -/
theorem mismatched_lengths_fail_before_wires_witness :
    create_main_array 0 2 15.24 [1] [0, 0] false = (0, .error .valueError) ∧
    create_int_array 0 2 15.24 0 (-100) 0 [1] [0, 0] false =
      (0, .error .valueError) :=
  mismatched_lengths_fail_before_wires 0 2 15.24 0 (-100) 0 [1] [0, 0] false
    (Or.inl (by decide))

/-- C8: a current source (`EX 6`) has each excitation component that equals
zero replaced by `1e-10` and every nonzero component kept unchanged, while a
voltage source (`EX 0`) is emitted exactly as given. -/
theorem current_source_zero_nudged (tag : ℕ) (seg : ℤ) (re im : ℝ) :
    ((mkSource tag seg re im true).re = if re = 0 then 1e-10 else re) ∧
    ((mkSource tag seg re im true).im = if im = 0 then 1e-10 else im) ∧
    (mkSource tag seg re im true).mode = 6 ∧
    mkSource tag seg re im false = ⟨0, tag, seg, re, im⟩ := by
  unfold mkSource
  refine ⟨?_, ?_, rfl, rfl⟩
  · by_cases h : re = 0 <;> simp [h]
  · by_cases h : im = 0 <;> simp [h]

/-- C6: the steering-phase computation returns exactly
`360 * d * sin(azimuth) / (c / f)` with
`azimuth = (b - 16/2 + 0.5) * 3.24` degrees (converted to radians inside
`sin`), under the default beam separation 3.24° and 16 beams. -/
theorem steering_phase_formula (b f d : ℝ) :
    calculate_phase_from_beam b f d =
      360 * d * Real.sin ((b - 16 / 2 + 0.5) * 3.24 * Real.pi / 180) /
        (299792458 / f) := by
  unfold calculate_phase_from_beam calculate_angle_from_beam speed_of_light
  norm_num

/-- C7 (code bug): a beam value of 0 supplied on the command line is parsed by
`argparse` as the `float` 0.0, for which `args.beam is not 0` is `True`, so
the dispatch does not bypass the steering formula: at 10.5 MHz and 15.24 m
spacing it computes a strictly negative (hence nonzero) phase.  Only the
absent-flag default — the cached `int` 0 — takes the `rel_phase = 0` branch. -/
theorem explicit_beam_zero_not_bypassed :
    relPhaseOfArgs (PyNum.float 0) 10.5 15.24 ≠ 0 ∧
    relPhaseOfArgs (PyNum.int 0) 10.5 15.24 = 0 := by
  have h1 : relPhaseOfArgs (PyNum.float 0) 10.5 15.24 =
      360 * 15.24 * Real.sin (-24.3 * Real.pi / 180) / (299792458 / 10500000) := by
    simp only [relPhaseOfArgs, pyIsNotIntZero, pyNumToR, calculate_phase_from_beam,
      calculate_angle_from_beam, speed_of_light, if_true]
    norm_num
  have hπ := Real.pi_pos
  have hs : 0 < Real.sin (24.3 * Real.pi / 180) := by
    apply Real.sin_pos_of_pos_of_lt_pi
    · positivity
    · nlinarith
  have hsin : Real.sin (-24.3 * Real.pi / 180) < 0 := by
    have harg : (-24.3) * Real.pi / 180 = -(24.3 * Real.pi / 180) := by ring
    rw [harg, Real.sin_neg]
    linarith
  have hlt : relPhaseOfArgs (PyNum.float 0) 10.5 15.24 < 0 := by
    rw [h1]
    apply div_neg_of_neg_of_pos
    · exact mul_neg_of_pos_of_neg (by norm_num) hsin
    · norm_num
  exact ⟨ne_of_lt hlt, rfl⟩

/-- C9 counterexample: at the non-divisible split `num_antennas = 6`,
`num_sub_arrays = 4` the broadened-phase computation fails with `TypeError`
(Python 3 `range` applied to the `float` result of `num_sub_arrays / 2`) —
not with the size-validation `ValueError` that realizes the spec's
`ConfigurationError` — and the evenly divisible split 8/4 fails identically,
so the failure is not a divisibility validation at all. -/
theorem broadened_phase_not_config_error :
    (6 : ℤ) % 4 ≠ 0 ∧
    calculate_broadened_phase 10500000 15.24 6 4 = .error .typeError ∧
    Err.typeError ≠ Err.valueError ∧
    calculate_broadened_phase 10500000 15.24 8 4 = .error .typeError :=
  ⟨by decide, rfl, by decide, rfl⟩

/-- C9 amended: `calculate_broadened_phase` performs no divisibility
validation; under Python 3 it fails with `TypeError` for every input,
divisible or not, because its first loop header applies `range` to the
`float` produced by `num_sub_arrays / 2`, and so it never returns a phase
list. -/
theorem broadened_phase_always_type_error (frequency_hz antenna_spacing_m : ℚ)
    (num_antennas num_sub_arrays : ℤ) :
    calculate_broadened_phase frequency_hz antenna_spacing_m num_antennas num_sub_arrays =
      .error .typeError := rfl

end NecGen


